import Mathlib

/-!
Verification development for the PrismoFinance bounties (DCA vault) contract.

The Rust sources under `contracts/dca/src` are shallowly embedded below.
Machine integers (`Uint128`, `u64`, `u128`) are modelled as `Nat`; the
claims proved here never approach `2 ^ 128`, and every operation that can
panic or return an error in the source (`-=` underflow, `unwrap`,
`checked_*` failure) is modelled by an `Except` error, never by
truncation.  `cosmwasm_std::Decimal` is an 18-decimal-place fixed point
number; it is embedded as its raw atomics (`value = atomics / 10 ^ 18`).
`Timestamp` is embedded as seconds (`Nat`), `Addr` and `Binary` as
`String`.  A CosmWasm request either commits all of its writes or aborts
with no writes at all, so a handler is embedded as a pure function from
its pre-state to `Except ContractError` of its post-state together with
the emitted events and outbound bank-send messages; an `Except.error`
result means the stored state is untouched.
-/

namespace Dca

/-- A `cosmwasm_std::Coin`: an amount of a denomination. -/
structure Coin where
  denom : String
  amount : Nat
  deriving Repr, DecidableEq

/-- An `cosmwasm_std::Decimal`: fixed-point with 18 decimal places,
holding `atomics / 10 ^ 18`. -/
structure Decimal where
  atomics : Nat
  deriving Repr, DecidableEq

/-- `Decimal::percent(n)` from cosmwasm: `n / 100` as a fixed point. -/
def Decimal.percent (n : Nat) : Decimal := ⟨n * 10 ^ 16⟩

/-- `Decimal::zero()`. -/
def Decimal.zero : Decimal := ⟨0⟩

/-- `Decimal::decimal_places()` is the constant 18 in cosmwasm. -/
def Decimal.decimalPlaces : Nat := 18

/-- `Decimal::checked_add` (the only failure is `Uint128` overflow,
which the claims never reach; modelled as plain addition). -/
def Decimal.add (a b : Decimal) : Decimal := ⟨a.atomics + b.atomics⟩

/-- `Uint128 * Decimal` in cosmwasm: `floor(u * d)`,
i.e. `u * atomics / 10 ^ 18` with `Nat` (floor) division. -/
def mulFloor (u : Nat) (d : Decimal) : Nat := u * d.atomics / 10 ^ 18

/-- Bank transfer message (`BankMsg::Send`): the embedding keeps the
recipient address and the funds of every outbound transfer. -/
structure BankSend where
  toAddress : String
  amount : List Coin
  deriving Repr, DecidableEq

/-- `types/vault.rs` `BountyStatus` (the file also calls it
`VaultStatus` in places; one enum in the source). -/
inductive BountyStatus where
  | scheduled
  | active
  | inactive
  | cancelled
  deriving Repr, DecidableEq

/-- `types/destination.rs` `Destination`: where a share of settled
proceeds goes.  `msg : Option Binary` is an optional follow-up contract
call payload. -/
structure Destination where
  allocation : Decimal
  address : String
  msg : Option String
  deriving Repr, DecidableEq

/-- Modelled from the spec: `types/time_interval.rs` is not under
`src/`.  The spec describes a swap interval rule with standard lengths
and a custom variant measured in seconds (minimum 60 at validation
time); the tests use `TimeInterval::Custom { seconds }` and a daily
default. -/
inductive TimeInterval where
  | daily
  | custom (seconds : Nat)
  deriving Repr, DecidableEq

/-- Modelled from the spec: the interval length in seconds used when
projecting a trigger target time forward. -/
def TimeInterval.seconds : TimeInterval → Nat
  | .daily => 86400
  | .custom s => s

/-- Modelled from the spec: `helpers/time.rs` `get_next_target_time` is
not under `src/`.  Per the spec, a replacement Time trigger's
`target_time` is computed by applying the interval rule to the
*previous* `target_time` (never to wall-clock now): rescheduling is
`previous target_time + interval`.  The first argument mirrors the
source call shape (`env.block.time` is passed but does not enter the
result). -/
def getNextTargetTime (_blockTime : Nat) (previousTargetTime : Nat)
    (interval : TimeInterval) : Nat :=
  previousTargetTime + interval.seconds

end Dca

namespace Dca.base

/-- `base::vaults::vault::PostExecutionAction` (crate `base` is not
under `src/`; the variants are exactly the ones `after_fin_swap.rs`
matches on). -/
inductive PostExecutionAction where
  | send
  | zDelegate
  deriving Repr, DecidableEq

/-- `base::vaults::vault::Destination` as used by `after_fin_swap.rs`:
an address, an allocation fraction and a post-execution action. -/
structure Destination where
  address : String
  allocation : Decimal
  action : PostExecutionAction
  deriving Repr, DecidableEq

/-- `base::vaults::vault::PositionType` as used by `after_fin_swap.rs`. -/
inductive PositionType where
  | enter
  | exit
  deriving Repr, DecidableEq

/-- Modelled from the spec: the trigger record consumed by
`after_fin_swap.rs` lives in the missing `base::triggers::trigger`
module.  The spec gives two variants: `Time { target_time }` and
`Price { target_price, order_idx }`; `after_fin_swap` matches `Time`
and panics on anything else. -/
inductive TriggerConfiguration where
  | time (targetTime : Nat)
  | price (targetPrice : Decimal) (orderIdx : Nat)
  deriving Repr, DecidableEq

/-- `base::triggers::trigger::Trigger` (missing module; shape used by
`after_fin_swap.rs`: a vault id plus a configuration). -/
structure Trigger where
  vaultId : Nat
  configuration : TriggerConfiguration
  deriving Repr, DecidableEq

/-- `base::events::event::ExecutionSkippedReason` (missing module; the
variants are exactly the ones `after_fin_swap.rs` constructs). -/
inductive ExecutionSkippedReason where
  | slippageToleranceExceeded
  | insufficientFunds
  | unknownFailure
  deriving Repr, DecidableEq

/-- The event payloads `after_fin_swap.rs` appends
(`base::events::event::EventData`, missing module). -/
inductive EventData where
  | dcaVaultExecutionCompleted (sent received fee : Coin)
  | dcaVaultExecutionSkipped (reason : ExecutionSkippedReason)
  deriving Repr, DecidableEq

end Dca.base

namespace Dca

/-- `constants.rs` `ONE_HUNDRED : Uint128 = 100000000` (one hundred in
six-decimal micro-units), the denominator of the execution-fee percent
in `after_fin_swap.rs`. -/
def ONE_HUNDRED : Nat := 100000000

/-- A trading pair of the old vault model (`base::pair::Pair`, used via
`crate::vault::Vault` by `after_fin_swap.rs`; module not under `src/`,
shape taken from `validation_helpers.rs` which reads `base_denom` and
`quote_denom`). -/
structure Pair where
  baseDenom : String
  quoteDenom : String
  deriving Repr, DecidableEq

/-- The vault record `after_fin_swap.rs` operates on
(`crate::vault::Vault` of the execution-engine half of the crate; the
module itself is not under `src/`, so the fields are the ones
`after_fin_swap.rs` reads). -/
structure Vault where
  id : Nat
  owner : String
  status : BountyStatus
  balance : Coin
  swapAmount : Nat
  positionType : base.PositionType
  pair : Pair
  destinations : List base.Destination
  timeInterval : TimeInterval
  startedAt : Option Nat
  deriving Repr, DecidableEq

/-- Modelled from the spec: `Vault::get_swap_denom` of the missing
vault module — the source-denom side of the pair for the vault's
position type. -/
def Vault.getSwapDenom (v : Vault) : String :=
  match v.positionType with
  | .enter => v.pair.quoteDenom
  | .exit => v.pair.baseDenom

/-- Modelled from the spec: `Vault::get_receive_denom` of the missing
vault module — the target-denom side of the pair. -/
def Vault.getReceiveDenom (v : Vault) : String :=
  match v.positionType with
  | .enter => v.pair.baseDenom
  | .exit => v.pair.quoteDenom

/-- Modelled from the spec: `Vault::get_swap_amount` of the missing
vault module.  The spec fixes the successful-resume balance mutation to
"decrement vault balance by the configured swap amount (not by the
amount actually sent)", so the swap amount used for the decrement is
the configured `swap_amount`. -/
def Vault.getSwapAmount (v : Vault) : Coin :=
  ⟨v.getSwapDenom, v.swapAmount⟩

/-- Modelled from the spec: `Vault::low_funds` of the missing vault
module — "becomes Inactive when balance drops below one swap amount". -/
def Vault.lowFunds (v : Vault) : Bool :=
  v.balance.amount < v.swapAmount

/-- The execution-engine config read by `after_fin_swap.rs`
(`state::CONFIG`; module not under `src/`, fields are the ones the
handler reads). -/
structure Config where
  feePercent : Nat
  feeCollector : String
  stakingRouterAddress : String
  deriving Repr, DecidableEq

/-- Modelled from the spec: `fin_helpers::codes::ERROR_SWAP_SLIPPAGE`
(crate not under `src/`) — the venue error text fragment identifying a
violated slippage bound. -/
def ERROR_SWAP_SLIPPAGE : String := "Max spread exceeded"

/-- Modelled from the spec:
`fin_helpers::codes::ERROR_SWAP_INSUFFICIENT_FUNDS` (crate not under
`src/`) — the venue error text fragment identifying insufficient funds
at the venue. -/
def ERROR_SWAP_INSUFFICIENT_FUNDS : String := "Insufficient funds"

/-- `e.contains(pat)` on Rust strings: substring occurrence. -/
def strContains (e pat : String) : Bool :=
  decide (List.IsInfix pat.toList e.toList)

/-- The swap reply consumed by `after_fin_swap.rs`.  In the source a
successful `SubMsgResult` carries venue events from which
`base_amount` and `quote_amount` are parsed
(`get_flat_map_for_event_type`, helper crate not under `src/`); the
embedding carries the two parsed amounts directly.  A failed result
carries the venue error text. -/
inductive SwapReply where
  | ok (baseAmount quoteAmount : Nat)
  | err (e : String)
  deriving Repr, DecidableEq

/-- A `StakingRouterExecuteMsg::ZDelegate` sub-call issued for a
`ZDelegate` destination. -/
structure ZDelegateCall where
  delegatorAddress : String
  validatorAddress : String
  denom : String
  amount : Nat
  deriving Repr, DecidableEq

/-- Everything `after_fin_swap` commits: the updated vault, the
replacement trigger, the appended events, the outbound bank sends and
the delegation sub-calls. -/
structure AfsResult where
  vault : Vault
  trigger : base.Trigger
  events : List base.EventData
  messages : List BankSend
  zDelegations : List ZDelegateCall
  deriving Repr, DecidableEq

/-- The per-destination disbursed amount computed at
`after_fin_swap.rs:80-87`:
`total_to_redistribute.checked_multiply_ratio(allocation.atomics(), 10^allocation.decimal_places())`,
i.e. `floor(total * atomics / 10 ^ 18)` (`Nat` division is floor). -/
def destinationAmount (totalToRedistribute : Nat) (d : base.Destination) : Nat :=
  totalToRedistribute * d.allocation.atomics / 10 ^ Decimal.decimalPlaces

/-- The failure classification of `after_fin_swap.rs:194-200`: a venue
error text containing the slippage code is a slippage-bound violation,
one containing the insufficient-funds code is insufficient funds, and
anything else is an unknown failure. -/
def classifySwapFailure (e : String) : base.ExecutionSkippedReason :=
  if strContains e ERROR_SWAP_SLIPPAGE then .slippageToleranceExceeded
  else if strContains e ERROR_SWAP_INSUFFICIENT_FUNDS then .insufficientFunds
  else .unknownFailure

/-- `handlers/after_fin_swap.rs` `after_fin_swap`: the resume of a swap
call.  On a successful fill it computes the fee and the fan-out
disbursement, decrements the balance by the configured swap amount
(Inactive on low funds), re-creates the Time trigger from the previous
`target_time`, and appends an execution-completed event; on a failure
it classifies the reason, appends an execution-skipped event and still
re-creates the Time trigger.  A non-Time trigger hits the source's
`panic!`, embedded as an error. -/
def afterFinSwap (vault : Vault) (trigger : base.Trigger) (config : Config)
    (blockTime : Nat) (reply : SwapReply) : Except String AfsResult :=
  match reply with
  | .ok baseAmount quoteAmount =>
    let (coinSent, coinReceived) :=
      match vault.positionType with
      | .enter => (Coin.mk vault.getSwapDenom quoteAmount,
                   Coin.mk vault.getReceiveDenom baseAmount)
      | .exit => (Coin.mk vault.getSwapDenom baseAmount,
                  Coin.mk vault.getReceiveDenom quoteAmount)
    let executionFee : Coin :=
      ⟨coinReceived.denom, coinReceived.amount * config.feePercent / ONE_HUNDRED⟩
    if coinReceived.amount < executionFee.amount then
      Except.error "Uint128 subtraction overflow computing total_to_redistribute"
    else
      let totalToRedistribute := coinReceived.amount - executionFee.amount
      let destMessages : List BankSend :=
        vault.destinations.map (fun d =>
          match d.action with
          | .send =>
            ⟨d.address, [⟨coinReceived.denom, destinationAmount totalToRedistribute d⟩]⟩
          | .zDelegate =>
            ⟨vault.owner, [⟨coinReceived.denom, destinationAmount totalToRedistribute d⟩]⟩)
      let zDelegations : List ZDelegateCall :=
        (vault.destinations.filter (fun d => d.action == .zDelegate)).map (fun d =>
          ⟨vault.owner, d.address, vault.getReceiveDenom,
           destinationAmount totalToRedistribute d⟩)
      if vault.balance.amount < vault.getSwapAmount.amount then
        Except.error "Uint128 subtraction overflow decrementing vault balance"
      else
        let decremented : Vault :=
          { vault with balance := ⟨vault.balance.denom,
              vault.balance.amount - vault.getSwapAmount.amount⟩ }
        let updatedVault : Vault :=
          { decremented with
            status := if decremented.lowFunds then .inactive else decremented.status
            startedAt := match decremented.startedAt with
              | none => some blockTime
              | some t => some t }
        match trigger.configuration with
        | .time targetTime =>
          Except.ok
            { vault := updatedVault
              trigger := ⟨vault.id, .time
                (getNextTargetTime blockTime targetTime vault.timeInterval)⟩
              events := [.dcaVaultExecutionCompleted coinSent coinReceived executionFee]
              messages := destMessages ++ [⟨config.feeCollector, [executionFee]⟩]
              zDelegations := zDelegations }
        | _ => Except.error "should be a time trigger"
  | .err e =>
    let reason : base.ExecutionSkippedReason := classifySwapFailure e
    match trigger.configuration with
    | .time targetTime =>
      Except.ok
        { vault := vault
          trigger := ⟨vault.id, .time
            (getNextTargetTime blockTime targetTime vault.timeInterval)⟩
          events := [.dcaVaultExecutionSkipped reason]
          messages := []
          zDelegations := [] }
    | _ => Except.error "should be a time trigger"

end Dca

namespace Dca

/-- `types/swap_adjustment_strategy.rs` `BaseDenom` (file not under
`src/`; the only variant the in-src handlers and tests name is
`Bitcoin`). -/
inductive BaseDenom where
  | bitcoin
  deriving Repr, DecidableEq

/-- `types/swap_adjustment_strategy.rs` `SwapAdjustmentStrategy` (file
not under `src/`; variants and fields are the ones `deposit.rs` and
`update_vault.rs` construct and match). -/
inductive SwapAdjustmentStrategy where
  | weightedScale (baseReceiveAmount : Nat) (multiplier : Decimal) (increaseOnly : Bool)
  | riskWeightedAverage (modelId : Nat) (baseDenom : BaseDenom)
      (positionType : base.PositionType)
  deriving Repr, DecidableEq

/-- `types/swap_adjustment_strategy.rs` `SwapAdjustmentStrategyParams`
(file not under `src/`; shape taken from `update_vault.rs`, which
matches a `WeightedScale` with the same three fields and a
`RiskWeightedAverage` without a model id). -/
inductive SwapAdjustmentStrategyParams where
  | weightedScale (baseReceiveAmount : Nat) (multiplier : Decimal) (increaseOnly : Bool)
  | riskWeightedAverage (baseDenom : BaseDenom) (positionType : base.PositionType)
  deriving Repr, DecidableEq

/-- `types/performance_assessment_strategy.rs`
`PerformanceAssessmentStrategy` (file not under `src/`; the single
variant `CompareToStandardDca { swapped_amount, received_amount }` is
the one `types/vault.rs` and the tests use). -/
inductive PerformanceAssessmentStrategy where
  | compareToStandardDca (swappedAmount receivedAmount : Coin)
  deriving Repr, DecidableEq

/-- `types/trigger.rs` `TriggerConfiguration` of the bounty model:
`Time` plus the two escrow-settlement variants declared there. -/
inductive TriggerConfiguration where
  | time (targetTime : Nat)
  | escrowReject (targetTime : Nat) (bountyId : Nat) (label : Option String)
      (bountyDescription : Option String) (status : Option BountyStatus)
      (destinations : List Destination) (targetDenom : String)
      (route : Option String) (slippageTolerance : Option Decimal)
  | escrowAccept (targetTime : Nat) (bountyId : Nat) (label : Option String)
      (bountyDescription : Option String) (status : Option BountyStatus)
      (destinations : List Destination) (targetDenom : String)
      (route : Option String) (slippageTolerance : Option Decimal)
  deriving Repr, DecidableEq

/-- `types/trigger.rs` `Trigger`: a bounty id plus a configuration. -/
structure Trigger where
  bountyId : Nat
  configuration : TriggerConfiguration
  deriving Repr, DecidableEq

/-- The bounty entity: `types/vault.rs` `Bounty` together with the
fields of `state/vaults.rs` `BountyData` that the in-src handlers read
(`swap_amount`, `swapped_amount`, `swap_adjustment_strategy`,
`performance_assessment_strategy`); `trigger` is the vault's trigger
as re-attached by `bounty_from`. -/
structure Bounty where
  id : Nat
  createdAt : Nat
  startedAt : Option Nat
  owner : String
  label : Option String
  destinations : List Destination
  status : BountyStatus
  balance : Coin
  targetDenom : String
  route : Option String
  slippageTolerance : Decimal
  minimumReceiveAmount : Option Nat
  timeInterval : TimeInterval
  escrowLevel : Decimal
  depositedAmount : Coin
  swappedAmount : Coin
  receivedAmount : Coin
  escrowedAmount : Coin
  swapAmount : Nat
  swapAdjustmentStrategy : Option SwapAdjustmentStrategy
  performanceAssessmentStrategy : Option PerformanceAssessmentStrategy
  trigger : Option TriggerConfiguration
  deriving Repr, DecidableEq

/-- `types/vault.rs` `get_swap_denom`: the balance's denom. -/
def Bounty.getSwapDenom (b : Bounty) : String := b.balance.denom

/-- `types/vault.rs` `is_active`. -/
def Bounty.isActive (b : Bounty) : Bool := b.status == .active

/-- `types/vault.rs` `is_inactive`. -/
def Bounty.isInactive (b : Bounty) : Bool := b.status == .inactive

/-- `types/vault.rs` `is_cancelled`. -/
def Bounty.isCancelled (b : Bounty) : Bool := b.status == .cancelled

/-- A CosmWasm `SubMsg` as stored in the post-execution-action cache
and in events; its body is opaque to every claim, so it is embedded as
an abstract payload. -/
structure SubMsg where
  payload : String
  deriving Repr, DecidableEq

/-- `types/update.rs` `Update` (file not under `src/`; shape taken
from `update_vault.rs`, which builds `field`/`old_value`/`new_value`
string triples).  The source fills the value fields with Rust
`format!` output; the embedding fills them with Lean `repr` output —
no claim inspects them. -/
structure Update where
  field : String
  oldValue : String
  newValue : String
  deriving Repr, DecidableEq

/-- `types/event.rs` `ExecutionSkippedReason` of the bounty model. -/
inductive ExecutionSkippedReason where
  | slippageToleranceExceeded
  | priceThresholdExceeded (price : Decimal)
  | swapAmountAdjustedToZero
  | slippageQueryError
  | unknownError (msg : String)
  deriving Repr, DecidableEq

/-- `types/event.rs` `EventData` of the bounty model (the handlers
refer to these constructors under `DcaVault*` names; `types/event.rs`
declares them as `Bounty*`). -/
inductive EventData where
  | bountyFundsDeposited (amount : Coin)
  | bountyExecutionTriggered (baseDenom quoteDenom : String) (assetPrice : Decimal)
  | bountyExecutionCompleted (sent received fee : Coin)
  | bountyExecutionSkipped (reason : ExecutionSkippedReason)
  | bountyCancelled
  | bountyEscrowDisbursed (amountDisbursed performanceFee : Coin)
  | bountyPostExecutionActionFailed (msg : SubMsg) (funds : List Coin)
  | bountyUpdated (updates : List Update)
  deriving Repr, DecidableEq

/-- `state/cache.rs` `PostExecutionActionCacheEntry` (file not under
`src/`; shape taken from the `handle_failed_automation.rs` tests: the
attempted sub-message and the funds it would deliver). -/
structure PostExecutionActionCacheEntry where
  msg : SubMsg
  funds : List Coin
  deriving Repr, DecidableEq

/-- A `SubMsgResult` as delivered to a reply handler. -/
inductive SubMsgResult where
  | ok
  | err (e : String)
  deriving Repr, DecidableEq

/-- What `handle_failed_automation_handler` commits: the shrunken
pending queue, the appended events, the outbound transfer (only on
failure) and the destination index recorded in the response
attribute. -/
structure FailedAutomationResult where
  queue : List PostExecutionActionCacheEntry
  events : List EventData
  messages : List BankSend
  destinationNum : Nat
  outcome : String
  deriving Repr, DecidableEq

/-- `handlers/handle_failed_automation.rs`
`handle_failed_automation_handler`: pops the front entry of the
per-bounty pending queue (the source's `pop_front().unwrap()` panics
on an empty queue, embedded as an error), then on a failed result
appends a post-execution-action-failed event carrying the entry's
message and funds and issues a bank send of exactly those funds to the
bounty owner (`shared::cw20::into_bank_msg`, crate not under `src/`,
per the spec a plain transfer to the given address); on a successful
result it only records the destination index. -/
def handleFailedAutomation (bounty : Bounty)
    (queue : List PostExecutionActionCacheEntry) (result : SubMsgResult) :
    Except String FailedAutomationResult :=
  match queue with
  | [] => Except.error "called Option::unwrap on a None value"
  | entry :: rest =>
    let destinationNum := bounty.destinations.length - rest.length
    match result with
    | .ok =>
      Except.ok { queue := rest, events := [], messages := [],
                  destinationNum := destinationNum, outcome := "succeeded" }
    | .err _ =>
      Except.ok
        { queue := rest
          events := [.bountyPostExecutionActionFailed entry.msg entry.funds]
          messages := [⟨bounty.owner, entry.funds⟩]
          destinationNum := destinationNum
          outcome := "failed" }

end Dca

namespace Dca

/-- `shared::coin::add` (crate not under `src/`): coin addition;
modelled as failing on a denom mismatch and adding the amounts
otherwise. -/
def coinAdd (a b : Coin) : Except String Coin :=
  if a.denom = b.denom then Except.ok ⟨a.denom, a.amount + b.amount⟩
  else Except.error "cannot add coins of different denoms"

/-- `shared::coin::subtract` (crate not under `src/`): coin
subtraction; modelled as failing on a denom mismatch or on underflow
(`Uint128` subtraction panics below zero). -/
def coinSubtract (a b : Coin) : Except String Coin :=
  if a.denom = b.denom then
    if b.amount ≤ a.amount then Except.ok ⟨a.denom, a.amount - b.amount⟩
    else Except.error "Uint128 subtraction overflow"
  else Except.error "cannot subtract coins of different denoms"

/-- `shared::coin::empty_of` (crate not under `src/`): the zero coin
of the same denom. -/
def emptyOf (a : Coin) : Coin := ⟨a.denom, 0⟩

/-- Modelled from the spec: `helpers/vault.rs`
`get_risk_weighted_average_model_id` is not under `src/` and the spec
does not describe the model id; no claim depends on its value, so it
is embedded as an unspecified total function of the same inputs. -/
def getRiskWeightedAverageModelId (_blockTime : Nat) (_balance : Coin)
    (_swapAmount : Nat) (_timeInterval : TimeInterval) : Nat := 0

/-- What `deposit_handler` commits: the updated bounty (its `trigger`
field reflects the trigger store after the optional `save_trigger`),
the appended events, and whether a fresh Time trigger was saved. -/
structure DepositResult where
  bounty : Bounty
  events : List EventData
  triggerSaved : Bool
  deriving Repr, DecidableEq

/-- `handlers/deposit.rs` `deposit_handler`: validates (contract not
paused, exactly one asset sent, the given address is the bounty owner,
bounty not cancelled, deposit denom matches the balance denom), adds
the funds to the balance and the deposited total, flips an Inactive
bounty to Active, refreshes a risk-weighted-average model id, appends
a funds-deposited event, and saves a fresh Time trigger exactly when
the updated bounty is Active, was Inactive, and had no trigger. -/
def depositHandler (paused : Bool) (bounty : Bounty) (address : String)
    (funds : List Coin) (blockTime : Nat) : Except String DepositResult :=
  if paused then Except.error "contract is paused"
  else if funds.length ≠ 1 then
    Except.error ("received " ++ toString funds.length ++ " denoms but required exactly 1")
  else
    match funds with
    | [deposit] =>
      if address ≠ bounty.owner then
        Except.error ("provided an incorrect owner address for bounty id "
          ++ toString bounty.id)
      else if bounty.status = .cancelled then
        Except.error "bounty is already cancelled"
      else if deposit.denom ≠ bounty.balance.denom then
        Except.error ("received asset with denom " ++ deposit.denom
          ++ ", but needed " ++ bounty.balance.denom)
      else
        let bountyWasInactive := bounty.isInactive
        match coinAdd bounty.balance deposit, coinAdd bounty.depositedAmount deposit with
        | Except.ok newBalance, Except.ok newDeposited =>
          let updated : Bounty :=
            { bounty with
              balance := newBalance
              depositedAmount := newDeposited
              status := if bounty.isInactive then .active else bounty.status
              swapAdjustmentStrategy := bounty.swapAdjustmentStrategy.map
                (fun s => match s with
                  | .riskWeightedAverage _ baseDenom positionType =>
                    .riskWeightedAverage
                      (getRiskWeightedAverageModelId blockTime newBalance
                        bounty.swapAmount bounty.timeInterval)
                      baseDenom positionType
                  | other => other) }
          let events := [EventData.bountyFundsDeposited deposit]
          if updated.isActive && bountyWasInactive && updated.trigger.isNone then
            Except.ok
              { bounty := { updated with trigger := some (.time
                  (getNextTargetTime blockTime
                    (updated.startedAt.getD blockTime) updated.timeInterval)) }
                events := events
                triggerSaved := true }
          else
            Except.ok { bounty := updated, events := events, triggerSaved := false }
        | Except.error e, _ => Except.error e
        | _, Except.error e => Except.error e
    | _ => Except.error "received 0 denoms but required exactly 1"

end Dca

namespace Dca

/-- `Decimal::from_ratio(a, b)` from cosmwasm: `a / b` as a fixed
point, `floor(a * 10 ^ 18 / b)`; panics (here: errors) on a zero
denominator. -/
def Decimal.ofQuotient (a b : Nat) : Except String Decimal :=
  if b = 0 then Except.error "Denominator must not be zero"
  else Except.ok ⟨a * 10 ^ 18 / b⟩

/-- `Decimal::one()`. -/
def Decimal.one : Decimal := ⟨10 ^ 18⟩

/-- Order on `Decimal` values by their atomics. -/
def Decimal.lt (a b : Decimal) : Bool := a.atomics < b.atomics

/-- `validation_helpers.rs`
`assert_destination_allocations_add_up_to_one`: folds the allocations
with `checked_add` and rejects unless the sum is exactly
`Decimal::percent(100)`. -/
def assertDestinationAllocationsAddUpToOne (destinations : List Destination) :
    Except String Unit :=
  if (destinations.foldl (fun acc d => acc.add d.allocation) Decimal.zero)
      ≠ Decimal.percent 100 then
    Except.error "destination allocations must add up to 1"
  else Except.ok ()

/-- `validation_helpers.rs` `assert_destinations_limit_is_not_breached`:
at most 10 destinations. -/
def assertDestinationsLimitIsNotBreached (destinations : List Destination) :
    Except String Unit :=
  if destinations.length > 10 then
    Except.error "no more than 10 destinations can be provided"
  else Except.ok ()

/-- Modelled from the spec: `helpers/validation.rs`
`assert_no_destination_allocations_are_zero` is not under `src/`; the
spec requires every allocation to be strictly positive. -/
def assertNoDestinationAllocationsAreZero (destinations : List Destination) :
    Except String Unit :=
  if destinations.any (fun d => d.allocation == Decimal.zero) then
    Except.error "all destination allocations must be greater than 0"
  else Except.ok ()

/-- Modelled from the spec: `helpers/validation.rs`
`assert_destination_callback_addresses_are_valid` is not under `src/`;
address validity is a host-API predicate the spec leaves out of scope,
so the embedding treats every address as valid. -/
def assertDestinationCallbackAddressesAreValid (_destinations : List Destination) :
    Except String Unit :=
  Except.ok ()

/-- Modelled from the spec: `helpers/validation.rs`
`assert_label_is_no_longer_than_100_characters` is not under `src/`;
rejects labels longer than 100 characters. -/
def assertLabelIsNoLongerThan100Characters (label : String) :
    Except String Unit :=
  if label.length > 100 then
    Except.error "Bounty label cannot be longer than 100 characters"
  else Except.ok ()

/-- Modelled from the spec: `helpers/validation.rs`
`assert_slippage_tolerance_is_less_than_or_equal_to_one` is not under
`src/`; the slippage bound is a fraction of at most one. -/
def assertSlippageToleranceIsLessThanOrEqualToOne (slippageTolerance : Decimal) :
    Except String Unit :=
  if Decimal.lt Decimal.one slippageTolerance then
    Except.error "slippage tolerance must be less than or equal to 1"
  else Except.ok ()

/-- Modelled from the spec: `helpers/validation.rs`
`assert_time_interval_is_valid` is not under `src/`; a custom interval
must be at least 60 seconds ("interval below minimum" validation). -/
def assertTimeIntervalIsValid (interval : TimeInterval) : Except String Unit :=
  match interval with
  | .custom s =>
    if s < 60 then Except.error "custom time interval must be at least 60 seconds"
    else Except.ok ()
  | _ => Except.ok ()

/-- Modelled from the spec: `helpers/validation.rs`
`assert_weighted_scale_multiplier_is_no_more_than_10` is not under
`src/`; a "limit too large" validation on the multiplier. -/
def assertWeightedScaleMultiplierIsNoMoreThan10 (multiplier : Decimal) :
    Except String Unit :=
  if Decimal.lt ⟨10 * 10 ^ 18⟩ multiplier then
    Except.error "weighted scale multiplier cannot be greater than 10"
  else Except.ok ()

/-- What `update_bounty_handler` commits: the persisted bounty (its
`trigger` field reflects the trigger store after any delete/save), the
recorded update diff list, and the appended events. -/
structure UpdateResult where
  bounty : Bounty
  updates : List Update
  events : List EventData
  deriving Repr, DecidableEq

/-- `handlers/update_vault.rs` `update_bounty_handler`: owner-only,
rejected on a cancelled bounty; applies each supplied field in source
order with its validations, recording an `Update` per change; an empty
destinations list is replaced by a single 100% allocation to the owner
before validation; a swap-amount change cannot be combined with a
minimum-receive-amount or swap-adjustment-strategy change and rescales
both derived fields; a time-interval change re-creates an existing
trigger from `started_at` (or now).  All writes are persisted only at
the end, so an error leaves the stored bounty unchanged. -/
def updateBountyHandler (bounty0 : Bounty) (sender : String) (blockTime : Nat)
    (label : Option String) (_bountyDescription : Option String)
    (destinations : Option (List Destination))
    (slippageTolerance : Option Decimal)
    (minimumReceiveAmount : Option Nat)
    (timeInterval : Option TimeInterval)
    (swapAdjustmentStrategy : Option SwapAdjustmentStrategyParams)
    (swapAmount : Option Nat) : Except String UpdateResult := do
  let mut bounty := bounty0
  let mut storedTrigger := bounty0.trigger
  if sender ≠ bounty.owner then throw "Unauthorized"
  if bounty.status = .cancelled then throw "bounty is already cancelled"
  let mut updates : List Update := []
  match swapAmount with
  | some newSwapAmount =>
    if minimumReceiveAmount.isSome then
      throw "cannot update swap amount and minimum receive amount at the same time."
    if swapAdjustmentStrategy.isSome then
      throw "cannot update swap amount and swap adjustment strategy at the same time."
    match bounty.minimumReceiveAmount with
    | some m =>
      let r ← Decimal.ofQuotient newSwapAmount bounty.swapAmount
      let updatedMinimumReceiveAmount := some (mulFloor m r)
      updates := updates ++ [⟨"minimum_receive_amount",
        reprStr bounty.minimumReceiveAmount, reprStr updatedMinimumReceiveAmount⟩]
      bounty := { bounty with minimumReceiveAmount := updatedMinimumReceiveAmount }
    | none => pure ()
    match bounty.swapAdjustmentStrategy with
    | some (.weightedScale baseReceiveAmount multiplier increaseOnly) =>
      let r ← Decimal.ofQuotient newSwapAmount bounty.swapAmount
      let updatedStrategy := some (SwapAdjustmentStrategy.weightedScale
        (mulFloor baseReceiveAmount r) multiplier increaseOnly)
      updates := updates ++ [⟨"swap_adjustment_strategy",
        reprStr bounty.swapAdjustmentStrategy, reprStr updatedStrategy⟩]
      bounty := { bounty with swapAdjustmentStrategy := updatedStrategy }
    | _ => pure ()
    updates := updates ++ [⟨"swap_amount",
      reprStr bounty.swapAmount, reprStr newSwapAmount⟩]
    bounty := { bounty with swapAmount := newSwapAmount }
  | none => pure ()
  match label with
  | some newLabel =>
    assertLabelIsNoLongerThan100Characters newLabel
    updates := updates ++ [⟨"label", bounty.label.getD "", newLabel⟩]
    bounty := { bounty with label := some newLabel }
  | none => pure ()
  match destinations with
  | some ds0 =>
    let ds := if ds0.isEmpty then
        [Destination.mk (Decimal.percent 100) bounty.owner none]
      else ds0
    assertDestinationsLimitIsNotBreached ds
    assertDestinationCallbackAddressesAreValid ds
    assertNoDestinationAllocationsAreZero ds
    assertDestinationAllocationsAddUpToOne ds
    updates := updates ++ [⟨"destinations",
      reprStr bounty.destinations, reprStr ds⟩]
    bounty := { bounty with destinations := ds }
  | none => pure ()
  match slippageTolerance with
  | some newSlippageTolerance =>
    assertSlippageToleranceIsLessThanOrEqualToOne newSlippageTolerance
    updates := updates ++ [⟨"slippage_tolerance",
      reprStr bounty.slippageTolerance, reprStr newSlippageTolerance⟩]
    bounty := { bounty with slippageTolerance := newSlippageTolerance }
  | none => pure ()
  match minimumReceiveAmount with
  | some newMinimumReceiveAmount =>
    updates := updates ++ [⟨"minimum_receive_amount",
      reprStr (bounty.minimumReceiveAmount.getD 0), reprStr newMinimumReceiveAmount⟩]
    bounty := { bounty with minimumReceiveAmount := some newMinimumReceiveAmount }
  | none => pure ()
  match timeInterval with
  | some newTimeInterval =>
    assertTimeIntervalIsValid newTimeInterval
    updates := updates ++ [⟨"time_interval",
      reprStr bounty.timeInterval, reprStr newTimeInterval⟩]
    bounty := { bounty with timeInterval := newTimeInterval }
    match bounty.trigger with
    | some oldTrigger =>
      storedTrigger := none
      let newTrigger := TriggerConfiguration.time
        (getNextTargetTime blockTime (bounty.startedAt.getD blockTime)
          bounty.timeInterval)
      storedTrigger := some newTrigger
      updates := updates ++ [⟨"trigger", reprStr oldTrigger, reprStr newTrigger⟩]
    | none => pure ()
  | none => pure ()
  match swapAdjustmentStrategy with
  | some (.weightedScale baseReceiveAmount multiplier increaseOnly) =>
    match bounty.swapAdjustmentStrategy with
    | some (.weightedScale _ _ _) =>
      assertWeightedScaleMultiplierIsNoMoreThan10 multiplier
      updates := updates ++ [⟨"swap_adjustment_strategy",
        reprStr bounty.swapAdjustmentStrategy, reprStr swapAdjustmentStrategy⟩]
      let newStrategy := some (SwapAdjustmentStrategy.weightedScale
        baseReceiveAmount multiplier increaseOnly)
      bounty := { bounty with swapAdjustmentStrategy := newStrategy }
    | _ =>
      throw ("cannot update swap adjustment strategy from "
        ++ reprStr bounty.swapAdjustmentStrategy ++ " to "
        ++ reprStr swapAdjustmentStrategy)
  | some (.riskWeightedAverage _ _) =>
    throw ("cannot update swap adjustment strategy from "
      ++ reprStr bounty.swapAdjustmentStrategy ++ " to "
      ++ reprStr swapAdjustmentStrategy)
  | none => pure ()
  Except.ok
    { bounty := { bounty with trigger := storedTrigger }
      updates := updates
      events := [.bountyUpdated updates] }

end Dca

namespace Dca

/-- Modelled from the spec: `helpers/fees.rs` `get_performance_fee` is
not under `src/`.  Per §4.3 the counterfactual is what a single-shot
standard execution of the swapped total would have received at the
freshly sampled price; if the actual received total outperforms it, a
fixed 20% of the outperformance is charged, capped at the full
escrowed amount, otherwise the fee is zero.  The fee is denominated in
the received-side (target) denom. -/
def getPerformanceFee (b : Bounty) (currentPrice : Decimal) : Coin :=
  let counterfactual := mulFloor b.swappedAmount.amount currentPrice
  let actual := b.receivedAmount.amount
  let fee :=
    if counterfactual < actual then
      mulFloor (actual - counterfactual) (Decimal.percent 20)
    else 0
  ⟨b.targetDenom, min fee b.escrowedAmount.amount⟩

/-- Modelled from the spec: `helpers/disbursement.rs`
`get_disbursement_messages` is not under `src/`.  Per §4.2/§4.3 the
amount is split across the destinations by allocation fraction with
independent truncation; a destination without a follow-up message gets
a plain bank send, a destination with one gets a follow-up sub-call
whose pending-queue entry carries the attempted message and its
funds. -/
def getDisbursementMessages (b : Bounty) (amount : Nat) :
    List BankSend × List PostExecutionActionCacheEntry :=
  let shares := b.destinations.map (fun d =>
    (d, Coin.mk b.targetDenom (mulFloor amount d.allocation)))
  ((shares.filter (fun p => p.1.msg.isNone)).map (fun p => ⟨p.1.address, [p.2]⟩),
   (shares.filter (fun p => p.1.msg.isSome)).map
     (fun p => ⟨⟨p.1.msg.getD ""⟩, [p.2]⟩))

/-- Modelled from the spec: `helpers/fees.rs` `get_fee_messages` is
not under `src/`.  It routes a collected fee to the configured fee
collector; a zero fee produces no transfer. -/
def getFeeMessages (feeCollector : String) (amount : Nat) (denom : String) :
    List BankSend :=
  if amount = 0 then [] else [⟨feeCollector, [⟨denom, amount⟩]⟩]

/-- What `disburse_escrow_handler` commits: the bounty with its escrow
zeroed (unchanged on the zero-escrow no-op), the appended events, the
outbound transfers, the pending follow-up queue written for the
sub-calls, whether the disburse-escrow task was deleted, the bounty id
cached for the reply handler, and the fee/disbursed amounts reported
in the response attributes. -/
structure DisburseResult where
  bounty : Bounty
  events : List EventData
  messages : List BankSend
  queue : List PostExecutionActionCacheEntry
  taskDeleted : Bool
  cachedBountyId : Option Nat
  performanceFee : Coin
  escrowDisbursed : Coin
  deriving Repr, DecidableEq

/-- `handlers/disburse_escrow.rs` `disburse_escrow_handler`:
executor-only; a zero escrow returns a no-op with zero fee and zero
disbursed and no messages; a recorded due date still in the future is
an error (no state mutated); otherwise it samples the price, computes
the performance fee, zeroes the escrow, appends an escrow-disbursed
event, deletes the task, caches the bounty id, and fans out the net
amount through the shared disbursement and fee-routing logic. -/
def disburseEscrowHandler (authorized : Bool) (feeCollector : String)
    (bounty : Bounty) (dueDate : Option Nat) (blockTime : Nat)
    (currentPrice : Decimal) : Except String DisburseResult := do
  if ¬ authorized then throw "Unauthorized"
  if bounty.escrowedAmount.amount = 0 then
    return { bounty := bounty, events := [], messages := [], queue := []
             taskDeleted := false, cachedBountyId := none
             performanceFee := ⟨bounty.targetDenom, 0⟩
             escrowDisbursed := ⟨bounty.targetDenom, 0⟩ }
  if let some d := dueDate then
    if blockTime < d then
      throw ("Escrow is not available to be disbursed until " ++ toString d)
  let performanceFee := getPerformanceFee bounty currentPrice
  let amountToDisburse ← coinSubtract bounty.escrowedAmount performanceFee
  let updated : Bounty := { bounty with escrowedAmount := emptyOf bounty.escrowedAmount }
  let (disbursementMessages, queue) :=
    getDisbursementMessages updated amountToDisburse.amount
  Except.ok
    { bounty := updated
      events := [.bountyEscrowDisbursed amountToDisburse performanceFee]
      messages := disbursementMessages
        ++ getFeeMessages feeCollector performanceFee.amount bounty.targetDenom
      queue := queue
      taskDeleted := true
      cachedBountyId := some bounty.id
      performanceFee := performanceFee
      escrowDisbursed := amountToDisburse }

end Dca

namespace Dca

/-- A sample execution-engine vault used to instantiate the universally
quantified theorems: balance 100, configured swap amount 60, two 50%
send destinations, Enter position on the (ukuji, uusk) pair. -/
def sampleVault : Vault :=
  { id := 1, owner := "owner1", status := .active
    balance := ⟨"uusk", 100⟩, swapAmount := 60
    positionType := .enter, pair := ⟨"ukuji", "uusk"⟩
    destinations := [⟨"dest1", Decimal.percent 50, .send⟩,
                     ⟨"dest2", Decimal.percent 50, .send⟩]
    timeInterval := .daily, startedAt := none }

/-- A sample Time trigger for `sampleVault` with previous target time
500. -/
def sampleTrigger : base.Trigger := ⟨1, .time 500⟩

/-- A sample execution-engine config with a zero fee percent. -/
def sampleConfig : Config := ⟨0, "fee_collector", "staking_router"⟩

/-- The committed result of a sample successful resume on
`sampleVault` (the `getD` default is never used: the run succeeds). -/
def sampleSuccessOut : AfsResult :=
  (afterFinSwap sampleVault sampleTrigger sampleConfig 1000
    (SwapReply.ok 5 7)).toOption.getD ⟨sampleVault, sampleTrigger, [], [], []⟩

/-- Claim C1: for every resume of a swap call that reports a successful
fill, the vault's stored balance afterwards equals its balance before
minus the configured swap amount, and if that new balance is below one
swap amount the vault's status is Inactive afterwards. -/
theorem afterFinSwap_success_decrements_by_swap_amount
    (vault : Vault) (trigger : base.Trigger) (config : Config)
    (blockTime baseAmount quoteAmount : Nat) (out : AfsResult)
    (h : afterFinSwap vault trigger config blockTime
        (SwapReply.ok baseAmount quoteAmount) = Except.ok out) :
    out.vault.balance.amount = vault.balance.amount - vault.swapAmount ∧
    (out.vault.balance.amount < vault.swapAmount →
      out.vault.status = BountyStatus.inactive) := by
  unfold afterFinSwap at h
  simp only [Vault.getSwapAmount] at h
  split at h
  · exact absurd h (by simp)
  · split at h
    · exact absurd h (by simp)
    · split at h
      · cases h
        refine ⟨rfl, ?_⟩
        intro hlow
        simp only [Vault.lowFunds] at *
        split
        · rfl
        · rename_i hcond
          simp only [decide_eq_true_eq] at hcond
          exact absurd hlow hcond
      · exact absurd h (by simp)

/-- Witness for C1: the theorem applied to `sampleVault` (balance 100,
swap amount 60): the new balance is 40 and, being below 60, the status
is Inactive. -/
theorem afterFinSwap_success_decrements_by_swap_amount_witness :
    sampleSuccessOut.vault.balance.amount
        = sampleVault.balance.amount - sampleVault.swapAmount ∧
    (sampleSuccessOut.vault.balance.amount < sampleVault.swapAmount →
      sampleSuccessOut.vault.status = BountyStatus.inactive) :=
  afterFinSwap_success_decrements_by_swap_amount sampleVault sampleTrigger
    sampleConfig 1000 5 7 sampleSuccessOut (by rfl)

end Dca

namespace Dca

/-- The committed result of a sample failed resume on `sampleVault`
whose venue error text contains the slippage code. -/
def sampleSkipOut : AfsResult :=
  (afterFinSwap sampleVault sampleTrigger sampleConfig 987654
    (SwapReply.err "dispatch: Max spread exceeded in trade")).toOption.getD
    ⟨sampleVault, sampleTrigger, [], [], []⟩

/-- Claim C5: for every resume of a swap call that reports a failure,
an execution-skipped event with the classified reason is recorded and
a new Time trigger is still created whose `target_time` equals the
previous trigger's `target_time` plus the vault's interval; the block
time of the resume is universally quantified and absent from the new
target time, so the reschedule is independent of when the resume is
processed. -/
theorem afterFinSwap_failure_skips_and_reschedules
    (vault : Vault) (config : Config) (blockTime previousTargetTime : Nat)
    (e : String) (out : AfsResult)
    (h : afterFinSwap vault ⟨vault.id, .time previousTargetTime⟩ config blockTime
        (SwapReply.err e) = Except.ok out) :
    out.events = [.dcaVaultExecutionSkipped (classifySwapFailure e)] ∧
    out.trigger.configuration
      = .time (previousTargetTime + vault.timeInterval.seconds) := by
  unfold afterFinSwap at h
  cases h
  exact ⟨rfl, rfl⟩

/-- Witness for C5: the theorem applied to `sampleVault` with previous
target time 500 and a slippage error text; the reason classifies to
slippage-tolerance-exceeded and the new target time is 500 plus one
day. -/
theorem afterFinSwap_failure_skips_and_reschedules_witness :
    sampleSkipOut.events = [.dcaVaultExecutionSkipped
      (classifySwapFailure "dispatch: Max spread exceeded in trade")] ∧
    sampleSkipOut.trigger.configuration
      = .time (500 + sampleVault.timeInterval.seconds) :=
  afterFinSwap_failure_skips_and_reschedules sampleVault sampleConfig 987654 500
    "dispatch: Max spread exceeded in trade" sampleSkipOut (by rfl)

end Dca

namespace Dca

/-- Claim C9: on every successful execution the per-destination
disbursed amount equals `floor(remainder * allocation)` where
`remainder` is the received amount minus the fee (each share truncated
independently by `Nat` floor division), and on the concrete sample run
(remainder 5, two 50% destinations) the shares sum to strictly less
than the remainder, the truncation loss accruing to no destination. -/
theorem afterFinSwap_shares_are_floored_independently
    (vault : Vault) (trigger : base.Trigger) (config : Config)
    (blockTime baseAmount quoteAmount : Nat) (sent received fee : Coin)
    (out : AfsResult)
    (h : afterFinSwap vault trigger config blockTime
        (SwapReply.ok baseAmount quoteAmount) = Except.ok out)
    (hevent : out.events = [.dcaVaultExecutionCompleted sent received fee]) :
    ((out.messages.map BankSend.amount).take vault.destinations.length
      = vault.destinations.map (fun d =>
          [Coin.mk received.denom
            ((received.amount - fee.amount) * d.allocation.atomics / 10 ^ 18)])) ∧
    (((sampleSuccessOut.messages.take sampleVault.destinations.length).map
        (fun m => (m.amount.map Coin.amount).sum)).sum
      < 5 - 5 * sampleConfig.feePercent / ONE_HUNDRED) := by
  refine ⟨?_, by decide⟩
  unfold afterFinSwap at h
  simp only [Vault.getSwapAmount] at h
  split at h
  · exact absurd h (by simp)
  · split at h
    · exact absurd h (by simp)
    · split at h
      · cases h
        simp only [AfsResult.events] at hevent
        injection hevent with h1 h2
        injection h1 with hsent hrecv hfee
        rw [← hrecv, ← hfee]
        simp only [AfsResult.messages, List.map_append, List.map_map]
        rw [List.take_left' (by simp)]
        refine List.map_congr_left (fun d _ => ?_)
        simp only [Function.comp_apply]
        cases d.action <;> rfl
      · exact absurd h (by simp)

end Dca

namespace Dca

/-- Witness for C9: the theorem applied to the sample successful run;
each 50% destination gets `floor(5 * 1/2) = 2`. -/
theorem afterFinSwap_shares_are_floored_independently_witness :
    ((sampleSuccessOut.messages.map BankSend.amount).take
        sampleVault.destinations.length
      = sampleVault.destinations.map (fun d =>
          [Coin.mk (Coin.mk "ukuji" 5).denom
            (((Coin.mk "ukuji" 5).amount - (Coin.mk "ukuji" 0).amount)
              * d.allocation.atomics / 10 ^ 18)])) ∧
    (((sampleSuccessOut.messages.take sampleVault.destinations.length).map
        (fun m => (m.amount.map Coin.amount).sum)).sum
      < 5 - 5 * sampleConfig.feePercent / ONE_HUNDRED) :=
  afterFinSwap_shares_are_floored_independently sampleVault sampleTrigger
    sampleConfig 1000 5 7 (Coin.mk "uusk" 7) (Coin.mk "ukuji" 5)
    (Coin.mk "ukuji" 0) sampleSuccessOut (by rfl) (by rfl)

/-- A sample bounty of the current data model, used to instantiate the
universally quantified theorems: Active, balance 10 of ukuji for
target uusk, swap amount 6, a single 100% owner destination, daily
interval, a Time trigger at 800, and 3 of uusk in escrow. -/
def sampleBounty : Bounty :=
  { id := 2, createdAt := 0, startedAt := some 100, owner := "owner2"
    label := none
    destinations := [⟨Decimal.percent 100, "owner2", none⟩]
    status := .active, balance := ⟨"ukuji", 10⟩, targetDenom := "uusk"
    route := none, slippageTolerance := Decimal.percent 1
    minimumReceiveAmount := none, timeInterval := .daily
    escrowLevel := Decimal.percent 5, depositedAmount := ⟨"ukuji", 10⟩
    swappedAmount := ⟨"ukuji", 0⟩, receivedAmount := ⟨"uusk", 0⟩
    escrowedAmount := ⟨"uusk", 3⟩, swapAmount := 6
    swapAdjustmentStrategy := none, performanceAssessmentStrategy := none
    trigger := some (.time 800) }

/-- Claim C3: a resume of a per-destination follow-up call pops exactly
one entry from the front of the pending queue; on a failed result it
also appends exactly one post-execution-action-failed event carrying
the attempted message and its funds and issues one transfer of exactly
those funds to the bounty owner; on a successful result it appends no
event and issues no transfer. -/
theorem handleFailedAutomation_pops_front_and_isolates_failure
    (bounty : Bounty) (entry : PostExecutionActionCacheEntry)
    (rest : List PostExecutionActionCacheEntry) (e : String) :
    ((handleFailedAutomation bounty (entry :: rest) (.err e)).map
        (fun out => (out.queue, out.events, out.messages))
      = Except.ok (rest,
          [EventData.bountyPostExecutionActionFailed entry.msg entry.funds],
          [BankSend.mk bounty.owner entry.funds])) ∧
    ((handleFailedAutomation bounty (entry :: rest) .ok).map
        (fun out => (out.queue, out.events, out.messages))
      = Except.ok (rest, [], [])) :=
  ⟨rfl, rfl⟩

end Dca

namespace Dca

/-- The scenario bounty of C4: Inactive, balance 0, swap amount
1,000,000, no trigger. -/
def c4Bounty : Bounty :=
  { sampleBounty with
    balance := ⟨"ukuji", 0⟩
    swapAmount := 1000000
    status := .inactive
    trigger := none }

/-- The committed result of depositing 10,000,000 ukuji into
`c4Bounty`. -/
def c4ScenarioOut : DepositResult :=
  (depositHandler false c4Bounty c4Bounty.owner [⟨"ukuji", 10000000⟩]
    0).toOption.getD ⟨c4Bounty, [], false⟩

/-- Claim C4: a deposit into an Inactive, non-cancelled bounty makes
the status Active if the new balance reaches the swap amount, and a
fresh Time trigger is saved if and only if the bounty had no trigger;
in particular the scenario bounty (balance 0, swap amount 1,000,000,
no trigger) deposited with 10,000,000 of the matching denom ends
Active with exactly one fresh Time trigger. -/
theorem depositHandler_reactivates_inactive_bounty
    (bounty : Bounty) (deposit : Coin) (blockTime : Nat) (out : DepositResult)
    (hinactive : bounty.status = .inactive)
    (h : depositHandler false bounty bounty.owner [deposit] blockTime
        = Except.ok out) :
    ((bounty.swapAmount ≤ out.bounty.balance.amount →
        out.bounty.status = BountyStatus.active) ∧
      (out.triggerSaved = true ↔ bounty.trigger = none)) ∧
    (c4ScenarioOut.bounty.status = BountyStatus.active ∧
      c4ScenarioOut.triggerSaved = true ∧
      c4ScenarioOut.bounty.trigger = some (.time 86500)) := by
  refine ⟨?_, by decide⟩
  have hwas : bounty.isInactive = true := by
    simp [Bounty.isInactive, hinactive]
  unfold depositHandler at h
  simp only [hinactive] at h
  simp [hwas, Bounty.isActive] at h
  repeat' (first | exact Except.noConfusion h | split at h)
  all_goals cases h
  all_goals refine ⟨fun _ => rfl, ?_⟩
  all_goals simp_all

end Dca

namespace Dca

/-- Witness for C4: the theorem applied to the scenario bounty itself
(Inactive, balance 0, swap amount 1,000,000, no trigger) with a
10,000,000 ukuji deposit. -/
theorem depositHandler_reactivates_inactive_bounty_witness :
    ((c4Bounty.swapAmount ≤ c4ScenarioOut.bounty.balance.amount →
        c4ScenarioOut.bounty.status = BountyStatus.active) ∧
      (c4ScenarioOut.triggerSaved = true ↔ c4Bounty.trigger = none)) ∧
    (c4ScenarioOut.bounty.status = BountyStatus.active ∧
      c4ScenarioOut.triggerSaved = true ∧
      c4ScenarioOut.bounty.trigger = some (.time 86500)) :=
  depositHandler_reactivates_inactive_bounty c4Bounty ⟨"ukuji", 10000000⟩ 0
    c4ScenarioOut (by rfl) (by rfl)

end Dca

namespace Dca

/-- The default destination substituted by `update_bounty_handler`
when the supplied list is empty: the bounty owner with a 100%
allocation and no follow-up message. -/
def defaultDestinationOf (bounty : Bounty) : Destination :=
  ⟨Decimal.percent 100, bounty.owner, none⟩

/-- Claim C10: an update request supplying an explicitly empty
destinations list is not rejected: the handler substitutes a single
destination of the owner with a 100% allocation and no follow-up
message, and the update succeeds with that default. -/
theorem updateBountyHandler_empty_destinations_defaults_to_owner
    (bounty : Bounty) (blockTime : Nat)
    (hnc : bounty.status ≠ .cancelled) :
    updateBountyHandler bounty bounty.owner blockTime none none (some []) none
        none none none none
      = Except.ok
          { bounty := { bounty with destinations := [defaultDestinationOf bounty] }
            updates := [⟨"destinations", reprStr bounty.destinations,
              reprStr [defaultDestinationOf bounty]⟩]
            events := [.bountyUpdated [⟨"destinations",
              reprStr bounty.destinations,
              reprStr [defaultDestinationOf bounty]⟩]] } := by
  unfold updateBountyHandler
  simp [hnc, defaultDestinationOf, assertDestinationsLimitIsNotBreached,
    assertDestinationCallbackAddressesAreValid,
    assertNoDestinationAllocationsAreZero,
    assertDestinationAllocationsAddUpToOne, Decimal.zero, Decimal.add,
    Decimal.percent]
  rfl

end Dca

namespace Dca

/-- Witness for C10: the theorem applied to `sampleBounty` (Active,
hence not cancelled). -/
theorem updateBountyHandler_empty_destinations_defaults_witness :
    updateBountyHandler sampleBounty sampleBounty.owner 0 none none (some [])
        none none none none none
      = Except.ok
          { bounty := { sampleBounty with
              destinations := [defaultDestinationOf sampleBounty] }
            updates := [⟨"destinations", reprStr sampleBounty.destinations,
              reprStr [defaultDestinationOf sampleBounty]⟩]
            events := [.bountyUpdated [⟨"destinations",
              reprStr sampleBounty.destinations,
              reprStr [defaultDestinationOf sampleBounty]⟩]] } :=
  updateBountyHandler_empty_destinations_defaults_to_owner sampleBounty 0
    (by decide)

/-- The 30%/80% destination pair of the C6 scenario. -/
def c6Destinations : List Destination :=
  [⟨Decimal.percent 30, "dest_a", none⟩, ⟨Decimal.percent 80, "dest_b", none⟩]

/-- Claim C6: an update request supplying a destinations list whose
allocations do not sum to exactly 1 (and which passes the checks the
handler runs first: non-empty, at most 10 entries, no zero
allocation) fails with the "destination allocations must add up to 1"
error; the handler persists only on success, so the stored bounty —
its destinations included — is unchanged.  The second conjunct is the
30%/80% scenario. -/
theorem updateBountyHandler_rejects_bad_allocation_sum
    (bounty : Bounty) (blockTime : Nat) (d0 : Destination)
    (ds : List Destination)
    (hnc : bounty.status ≠ .cancelled)
    (hlimit : (d0 :: ds).length ≤ 10)
    (hzero : ∀ d ∈ d0 :: ds, d.allocation ≠ Decimal.zero)
    (hsum : (d0 :: ds).foldl (fun acc d => acc.add d.allocation) Decimal.zero
      ≠ Decimal.percent 100) :
    (updateBountyHandler bounty bounty.owner blockTime none none
        (some (d0 :: ds)) none none none none none
      = Except.error "destination allocations must add up to 1") ∧
    (updateBountyHandler sampleBounty sampleBounty.owner 0 none none
        (some c6Destinations) none none none none none
      = Except.error "destination allocations must add up to 1") := by
  refine ⟨?_, by rfl⟩
  have hng : ¬ (10 < ds.length + 1) := by
    simp only [List.length_cons] at hlimit
    omega
  have hany : (d0 :: ds).any (fun d => d.allocation == Decimal.zero) = false := by
    rw [List.any_eq_false]
    intro d hd
    simpa using hzero d hd
  have hsum' : List.foldl (fun acc d => acc.add d.allocation)
      (Decimal.zero.add d0.allocation) ds ≠ Decimal.percent 100 := hsum
  unfold updateBountyHandler
  simp [hnc, assertDestinationsLimitIsNotBreached, hng,
    assertDestinationCallbackAddressesAreValid,
    assertNoDestinationAllocationsAreZero, hany,
    assertDestinationAllocationsAddUpToOne, hsum']
  rfl

end Dca

namespace Dca

/-- Witness for C6: the theorem applied to `sampleBounty` with the
30%/80% destination pair. -/
theorem updateBountyHandler_rejects_bad_allocation_sum_witness :
    (updateBountyHandler sampleBounty sampleBounty.owner 0 none none
        (some (Destination.mk (Decimal.percent 30) "dest_a" none
          :: [Destination.mk (Decimal.percent 80) "dest_b" none]))
        none none none none none
      = Except.error "destination allocations must add up to 1") ∧
    (updateBountyHandler sampleBounty sampleBounty.owner 0 none none
        (some c6Destinations) none none none none none
      = Except.error "destination allocations must add up to 1") :=
  updateBountyHandler_rejects_bad_allocation_sum sampleBounty 0
    ⟨Decimal.percent 30, "dest_a", none⟩
    [⟨Decimal.percent 80, "dest_b", none⟩]
    (by decide) (by decide) (by decide) (by decide)

end Dca

namespace Dca

/-- Claim C8: a disburse-escrow request on a bounty with non-zero
escrow, a recorded due date, and a current time earlier than that due
date fails with an error; an erroring request aborts atomically, so
the escrow, the event log and the pending task are unchanged. -/
theorem disburseEscrowHandler_rejects_before_due_date
    (feeCollector : String) (bounty : Bounty) (d blockTime : Nat)
    (price : Decimal)
    (hesc : bounty.escrowedAmount.amount ≠ 0)
    (hdue : blockTime < d) :
    disburseEscrowHandler true feeCollector bounty (some d) blockTime price
      = Except.error ("Escrow is not available to be disbursed until "
          ++ toString d) := by
  unfold disburseEscrowHandler
  simp [hesc, hdue]
  rfl

/-- Witness for C8: the theorem applied to `sampleBounty` (escrow 3)
with a due date of 100 at time 50. -/
theorem disburseEscrowHandler_rejects_before_due_date_witness :
    disburseEscrowHandler true "fee_collector" sampleBounty (some 100) 50
        (Decimal.percent 100)
      = Except.error ("Escrow is not available to be disbursed until "
          ++ toString 100) :=
  disburseEscrowHandler_rejects_before_due_date "fee_collector" sampleBounty
    100 50 (Decimal.percent 100) (by decide) (by decide)

/-- Claim C7: disbursing escrow is idempotent.  Any successful
disbursement leaves the bounty with zero escrow, so an immediately
following disburse-escrow request (any due date, time, price or fee
collector) succeeds as a no-op with zero fee, zero disbursed, no
transfer messages and no state change. -/
theorem disburseEscrowHandler_idempotent
    (feeCollector feeCollector2 : String) (bounty : Bounty)
    (due due2 : Option Nat) (blockTime blockTime2 : Nat)
    (price price2 : Decimal) (out : DisburseResult)
    (h : disburseEscrowHandler true feeCollector bounty due blockTime price
        = Except.ok out) :
    disburseEscrowHandler true feeCollector2 out.bounty due2 blockTime2 price2
      = Except.ok
          { bounty := out.bounty, events := [], messages := [], queue := []
            taskDeleted := false, cachedBountyId := none
            performanceFee := ⟨out.bounty.targetDenom, 0⟩
            escrowDisbursed := ⟨out.bounty.targetDenom, 0⟩ } := by
  have hz : out.bounty.escrowedAmount.amount = 0 := by
    unfold disburseEscrowHandler at h
    simp at h
    by_cases hez : bounty.escrowedAmount.amount = 0
    · rw [if_pos hez] at h
      cases h
      exact hez
    · rw [if_neg hez] at h
      have main : ∀ (fc : String),
          (do
            let amountToDisburse ← coinSubtract bounty.escrowedAmount
              (getPerformanceFee bounty price)
            Except.ok
              { bounty := { bounty with
                  escrowedAmount := emptyOf bounty.escrowedAmount }
                events := [.bountyEscrowDisbursed amountToDisburse
                  (getPerformanceFee bounty price)]
                messages := (getDisbursementMessages
                    { bounty with escrowedAmount := emptyOf bounty.escrowedAmount }
                    amountToDisburse.amount).1
                  ++ getFeeMessages fc (getPerformanceFee bounty price).amount
                      bounty.targetDenom
                queue := (getDisbursementMessages
                    { bounty with escrowedAmount := emptyOf bounty.escrowedAmount }
                    amountToDisburse.amount).2
                taskDeleted := true
                cachedBountyId := some bounty.id
                performanceFee := getPerformanceFee bounty price
                escrowDisbursed := amountToDisburse } : Except String DisburseResult)
            = Except.ok out → out.bounty.escrowedAmount.amount = 0 := by
        intro fc hmain
        cases hsub : coinSubtract bounty.escrowedAmount
            (getPerformanceFee bounty price) with
        | error e =>
          rw [hsub] at hmain
          exact Except.noConfusion hmain
        | ok v =>
          rw [hsub] at hmain
          cases hmain
          rfl
      cases due with
      | none => exact main feeCollector h
      | some d =>
        dsimp only at h
        by_cases hlt : blockTime < d
        · rw [if_pos hlt] at h
          exact Except.noConfusion h
        · rw [if_neg hlt] at h
          exact main feeCollector h
  unfold disburseEscrowHandler
  simp [hz]
  rfl

/-- The committed result of a first successful escrow disbursement on
`sampleBounty`. -/
def c7FirstOut : DisburseResult :=
  (disburseEscrowHandler true "fee_collector" sampleBounty none 0
    (Decimal.percent 100)).toOption.getD
    ⟨sampleBounty, [], [], [], false, none, ⟨"uusk", 0⟩, ⟨"uusk", 0⟩⟩

/-- Witness for C7: the theorem applied to the first disbursement on
`sampleBounty`; the immediate second request is a no-op. -/
theorem disburseEscrowHandler_idempotent_witness :
    disburseEscrowHandler true "other_collector" c7FirstOut.bounty (some 5) 99
        (Decimal.percent 200)
      = Except.ok
          { bounty := c7FirstOut.bounty, events := [], messages := [], queue := []
            taskDeleted := false, cachedBountyId := none
            performanceFee := ⟨c7FirstOut.bounty.targetDenom, 0⟩
            escrowDisbursed := ⟨c7FirstOut.bounty.targetDenom, 0⟩ } :=
  disburseEscrowHandler_idempotent "fee_collector" "other_collector"
    sampleBounty none (some 5) 0 99 (Decimal.percent 100) (Decimal.percent 200)
    c7FirstOut (by rfl)

end Dca
